import Mathlib

/-!
# xmrig-proxy configuration layer (`src/core/Config.cpp`)

A shallow embedding of `xmrig::Config`, the proxy-specific configuration layer
that extends `xmrig::CommonConfig`, followed by theorems about its setters,
its `adjust` step and its JSON rendering.

Modelling conventions.

* Stateful member functions become pure functions `Config → Bool × Config`
  (or `Config → Config` for `void` members).
* The base class `CommonConfig`, the value class `Addr`, the constant
  `Pool::kKeepAliveTimeout`, the enumerator `CRYPTONIGHT_LITE` and the build
  flag `HAVE_SYSLOG_H` are declared outside `Config.cpp`.  They are gathered in
  the record `Collab` and every definition takes it as a parameter.
* `uint64_t` values are natural numbers (below `2 ^ 64`), `int` values are
  integers; the one narrowing conversion of the file (`static_cast<int>`) is
  modelled by `static_cast_int`.
* `const char *` arguments are `String`s; a `const char *` that may be null is
  an `Option String`.
-/

namespace xmrig

/-! ## Data model -/

/-- Option keys (`enum Keys` of `interfaces/IConfig.h`).  The numeric values of
the enumerators are not part of `Config.cpp`; the nine enumerators this file
switches on are kept by name and are pairwise distinct, every other `int` key
is `other code`. -/
inductive Key where
  | VerboseKey
  | DebugKey
  | WorkersKey
  | ModeKey
  | BindKey
  | CoinKey
  | AccessLogFileKey
  | CustomDiffKey
  | ReuseTimeoutKey
  | other (code : Int)
deriving DecidableEq, Repr

/-- What `Config.cpp` observes of an `Addr` object (class of `proxy/Addr.h`):
its text `addr()` and its validity flag `isValid()`. -/
structure Addr where
  addr : String
  isValid : Bool
deriving DecidableEq, Repr

/-- What `Config.cpp` observes of a `Pool` object (class of `net/Pool.h`). -/
structure Pool where
  url : String
  user : String
  password : String
  keepAlive : Int
  variant : Int
deriving DecidableEq, Repr

/-- The members of the base class `CommonConfig` that `Config.cpp` reads or
writes. -/
structure CommonConfig where
  m_algorithm : Int
  m_apiIPv6 : Bool
  m_apiRestricted : Bool
  m_background : Bool
  m_colors : Bool
  m_syslog : Bool
  m_watch : Bool
  m_apiToken : Option String
  m_apiWorkerId : Option String
  m_logFile : Option String
  m_userAgent : Option String
  m_apiPort : Int
  m_donateLevel : Int
  m_retries : Int
  m_retryPause : Int
  m_pools : List Pool
deriving DecidableEq, Repr

/-- Everything `Config.cpp` uses without defining it.

* `adjust`, `parseBoolean`, `parseString`, `parseUint64` are the member
  functions `CommonConfig::adjust` and `CommonConfig::parse*`: arbitrary
  functions of the base state that return a verdict and a new base state.
  The members of the derived class are private to it, so the base handlers act
  on the base members only; a call that a base handler would make back into a
  virtual setter of the derived class is not modelled.
* `algoName` is the accessor `CommonConfig::algoName()`.
* `mkAddr` is the constructor `Addr(const char *)`.
* `kKeepAliveTimeout` is `Pool::kKeepAliveTimeout`.
* `CRYPTONIGHT_LITE` is the enumerator of `xmrig.h`.
* `HAVE_SYSLOG_H` tells whether the build defines that preprocessor flag. -/
structure Collab where
  adjust : CommonConfig → Bool × CommonConfig
  parseBoolean : Key → Bool → CommonConfig → Bool × CommonConfig
  parseString : Key → String → CommonConfig → Bool × CommonConfig
  parseUint64 : Key → Nat → CommonConfig → Bool × CommonConfig
  algoName : CommonConfig → String
  mkAddr : String → Addr
  kKeepAliveTimeout : Int
  CRYPTONIGHT_LITE : Int
  HAVE_SYSLOG_H : Bool

/-- The state of an `xmrig::Config` object: the base-class part and the nine
data members the class adds. -/
structure Config where
  base : CommonConfig
  m_debug : Bool
  m_ready : Bool
  m_verbose : Bool
  m_workers : Bool
  m_mode : Int
  m_reuseTimeout : Int
  m_addrs : List Addr
  m_diff : Nat
  m_accessLog : Option String
deriving DecidableEq, Repr

/-- The table `modeNames` (lines 41-44). -/
def modeNames : List String := ["nicehash", "simple"]

/-- Modelled from the spec: the enumeration `Config::Mode` is declared in
`core/Config.h`, which is not among the sources; the spec lists the modes as
`nicehash | simple`, the order of the table `modeNames`, so `NICEHASH_MODE` is
the index of `"nicehash"`. -/
def NICEHASH_MODE : Int := 0

/-- The constant `INT_MAX` of `<limits.h>` for a 32-bit `int`. -/
def INT_MAX : Nat := 2147483647

/-- The constant `LONG_MAX` of `<limits.h>` for a 64-bit `long`. -/
def LONG_MAX : Int := 9223372036854775807

/-- The constant `LONG_MIN` of `<limits.h>` for a 64-bit `long`. -/
def LONG_MIN : Int := -9223372036854775808

/-- The constructor `Config::Config()` (lines 52-61) over a default-constructed
base part `b`; the vector `m_addrs` starts empty and the string `m_accessLog`
starts null. -/
def Config.new (b : CommonConfig) : Config :=
  { base := b
    m_debug := false
    m_ready := false
    m_verbose := false
    m_workers := true
    m_mode := NICEHASH_MODE
    m_reuseTimeout := 0
    m_addrs := []
    m_diff := 0
    m_accessLog := none }

/-- Two states agree on every data member added by `Config` (they may differ
in the base-class part). -/
def Config.sameLayer (c d : Config) : Prop :=
  d.m_debug = c.m_debug ∧ d.m_ready = c.m_ready ∧ d.m_verbose = c.m_verbose ∧
  d.m_workers = c.m_workers ∧ d.m_mode = c.m_mode ∧
  d.m_reuseTimeout = c.m_reuseTimeout ∧ d.m_addrs = c.m_addrs ∧
  d.m_diff = c.m_diff ∧ d.m_accessLog = c.m_accessLog

instance (c d : Config) : Decidable (Config.sameLayer c d) := by
  unfold Config.sameLayer
  infer_instance

/-! ## C library helpers -/

/-- The conversion `static_cast<int>(arg)` of a `uint64_t` to a 32-bit `int`:
the value modulo `2 ^ 32`, read as two's complement. -/
def static_cast_int (arg : Nat) : Int :=
  if arg % 4294967296 < 2147483648 then (arg % 4294967296 : Nat)
  else ((arg % 4294967296 : Nat) : Int) - 4294967296

/-- The conversion of a `long` to `uint64_t`: the value modulo `2 ^ 64`. -/
def to_uint64 (n : Int) : Nat := (n % 18446744073709551616).toNat

/-- The predicate `isspace` of the C locale. -/
def isspace (ch : Char) : Bool :=
  ch.toNat = 32 || (9 ≤ ch.toNat && ch.toNat ≤ 13)

/-- The value of the longest run of decimal digits at the head of a text,
accumulated from `acc`. -/
def digitsValue : List Char → Nat → Nat
  | [], acc => acc
  | ch :: rest, acc =>
    if 48 ≤ ch.toNat ∧ ch.toNat ≤ 57 then digitsValue rest (acc * 10 + (ch.toNat - 48))
    else acc

/-- The call `strtol(arg, nullptr, 10)`: skip white space, read an optional
sign and the decimal digits that follow, clamp to the range of `long`; a text
without digits yields 0. -/
def strtol (arg : String) : Int :=
  match arg.toList.dropWhile isspace with
  | '-' :: ds => max LONG_MIN (-(digitsValue ds 0 : Int))
  | '+' :: ds => min LONG_MAX (digitsValue ds 0 : Int)
  | ds => min LONG_MAX (digitsValue ds 0 : Int)

/-- The function `tolower` of the C locale. -/
def tolower (ch : Char) : Char :=
  if 65 ≤ ch.toNat ∧ ch.toNat ≤ 90 then Char.ofNat (ch.toNat + 32) else ch

/-- The call `strncasecmp(a, b, n) == 0` on NUL-terminated texts: at most `n`
characters are compared without regard to ASCII case, and the comparison stops
at the first difference or at the end of both texts. -/
def strncasecmpEq : List Char → List Char → Nat → Bool
  | _, _, 0 => true
  | [], [], _ + 1 => true
  | [], _ :: _, _ + 1 => false
  | _ :: _, [], _ + 1 => false
  | a :: as, b :: bs, n + 1 =>
    if tolower a = tolower b then strncasecmpEq as bs n else false

/-! ## Member functions of `Config` -/

/-- The lookup `modeNames[m_mode]` of `Config::modeName()` (lines 70-73); an
index outside the table has no defined result. -/
def Config.modeName (c : Config) : Option String :=
  if 0 ≤ c.m_mode then modeNames.get? c.m_mode.toNat else none

/-- The loop of `Config::setMode` from index `i` over the rest of the table:
the first entry equal to `mode` (by `strcmp`) stores its index and ends the
loop.  Every entry of the table is a string literal, so the null test
`modeNames[i] &&` of the source always passes. -/
def setModeLoop (mode : String) : List String → Nat → Config → Config
  | [], _, c => c
  | name :: rest, i, c =>
    if mode = name then { c with m_mode := (i : Int) }
    else setModeLoop mode rest (i + 1) c

/-- The member `Config::setMode` (lines 287-297). -/
def Config.setMode (mode : String) (c : Config) : Config :=
  setModeLoop mode modeNames 0 c

/-- The member `Config::setCoin` (lines 279-284). -/
def Config.setCoin (x : Collab) (coin : String) (c : Config) : Config :=
  if strncasecmpEq coin.toList "aeon".toList 4 then
    { c with base := { c.base with m_algorithm := x.CRYPTONIGHT_LITE } }
  else c

/-- The member `Config::adjust` (lines 151-163). -/
def Config.adjust (x : Collab) (c : Config) : Bool × Config :=
  let r := x.adjust c.base
  let c1 := { c with base := r.2 }
  if !r.1 then (false, c1)
  else if c1.m_addrs.isEmpty then
    (true, { c1 with m_addrs := (c1.m_addrs ++ [x.mkAddr "0.0.0.0:3333"]) ++ [x.mkAddr "[::]:3333"] })
  else (true, c1)

/-- The member `Config::parseBoolean` (lines 166-190). -/
def Config.parseBoolean (x : Collab) (key : Key) (enable : Bool) (c : Config) : Bool × Config :=
  let r := x.parseBoolean key enable c.base
  let c1 := { c with base := r.2 }
  if !r.1 then (false, c1)
  else
    match key with
    | .VerboseKey => (true, { c1 with m_verbose := enable })
    | .DebugKey => (true, { c1 with m_debug := enable })
    | .WorkersKey => (true, { c1 with m_workers := enable })
    | _ => (true, c1)

/-- The member `Config::parseUint64` (lines 239-261). -/
def Config.parseUint64 (x : Collab) (key : Key) (arg : Nat) (c : Config) : Bool × Config :=
  let r := x.parseUint64 key arg c.base
  let c1 := { c with base := r.2 }
  if !r.1 then (false, c1)
  else
    match key with
    | .CustomDiffKey =>
      if arg ≥ 100 ∧ arg < INT_MAX then (true, { c1 with m_diff := arg })
      else (true, c1)
    | .ReuseTimeoutKey => (true, { c1 with m_reuseTimeout := static_cast_int arg })
    | _ => (true, c1)

/-- The member `Config::parseString` (lines 193-236). -/
def Config.parseString (x : Collab) (key : Key) (arg : String) (c : Config) : Bool × Config :=
  let r := x.parseString key arg c.base
  let c1 := { c with base := r.2 }
  if !r.1 then (false, c1)
  else
    match key with
    | .ModeKey => (true, Config.setMode arg c1)
    | .BindKey =>
      let addr := x.mkAddr arg
      if addr.isValid then (true, { c1 with m_addrs := c1.m_addrs ++ [addr] })
      else (true, c1)
    | .CoinKey => (true, c1)
    | .AccessLogFileKey => (true, { c1 with m_accessLog := some arg })
    | .VerboseKey => Config.parseBoolean x key true c1
    | .DebugKey => Config.parseBoolean x key true c1
    | .WorkersKey => Config.parseBoolean x key false c1
    | .CustomDiffKey => Config.parseUint64 x key (to_uint64 (strtol arg)) c1
    | _ => (true, c1)

/-! ## JSON values (rapidjson) -/

/-- A rapidjson value.  An object is the sequence of its members in insertion
order; numbers are integers (the file stores `int` and `uint64_t` values
only). -/
inductive JValue where
  | null
  | bool (b : Bool)
  | number (n : Int)
  | string (s : String)
  | array (items : List JValue)
  | object (members : List (String × JValue))

/-- The call `obj.AddMember(name, value, allocator)`: the member is added after
the members already present. -/
def AddMember (members : List (String × JValue)) (name : String) (value : JValue) :
    List (String × JValue) :=
  members ++ [(name, value)]

/-- The call `arr.PushBack(value, allocator)`. -/
def PushBack (items : List JValue) (value : JValue) : List JValue :=
  items ++ [value]

/-- The call `FindMember(name)`: the value of the first member of an object
that carries the name. -/
def JValue.FindMember (v : JValue) (name : String) : Option JValue :=
  match v with
  | .object members =>
    match members.find? (fun m => m.1 == name) with
    | some m => some m.2
    | none => none
  | _ => none

/-- The subscript `doc[name]` of rapidjson with assertions compiled out: the
member found by `FindMember`, and a Null value when there is none. -/
def JValue.index (v : JValue) (name : String) : JValue :=
  match v.FindMember name with
  | some m => m
  | none => .null

/-- The member names of an object, in order. -/
def JValue.keys (v : JValue) : List String :=
  match v with
  | .object members => members.map (fun m => m.1)
  | _ => []

/-- The expression `p ? Value(StringRef(p)).Move() : Value(kNullType).Move()`
used for every `const char *` that may be null. -/
def stringOrNull (p : Option String) : JValue :=
  match p with
  | some s => .string s
  | none => .null

/-! ## JSON rendering and JSON input -/

/-- The body of the loop over `m_pools` in `Config::getJSON` (lines 110-125):
the object pushed for one pool. -/
def poolJSON (x : Collab) (pool : Pool) : JValue :=
  let obj : List (String × JValue) := []
  let obj := AddMember obj "url" (.string pool.url)
  let obj := AddMember obj "user" (.string pool.user)
  let obj := AddMember obj "pass" (.string pool.password)
  let obj :=
    if pool.keepAlive = 0 ∨ pool.keepAlive = x.kKeepAliveTimeout then
      AddMember obj "keepalive" (.bool (decide (pool.keepAlive > 0)))
    else
      AddMember obj "keepalive" (.number pool.keepAlive)
  let obj := AddMember obj "variant" (.number pool.variant)
  .object obj

/-- The object `api` built in `Config::getJSON` (lines 85-90). -/
def apiJSON (c : Config) : JValue :=
  let api : List (String × JValue) := []
  let api := AddMember api "port" (.number c.base.m_apiPort)
  let api := AddMember api "access-token" (stringOrNull c.base.m_apiToken)
  let api := AddMember api "worker-id" (stringOrNull c.base.m_apiWorkerId)
  let api := AddMember api "ipv6" (.bool c.base.m_apiIPv6)
  let api := AddMember api "restricted" (.bool c.base.m_apiRestricted)
  .object api

/-- The member `Config::getJSON` (lines 76-142): the value of `doc` after the
call.  The member `mode` is added in every state; where `m_mode` is no index
of the table the text read by `modeName()` is not defined and is shown as
Null. -/
def Config.getJSON (x : Collab) (c : Config) : JValue :=
  let doc : List (String × JValue) := []
  let doc := AddMember doc "access-log-file" (stringOrNull c.m_accessLog)
  let doc := AddMember doc "algo" (.string (x.algoName c.base))
  let doc := AddMember doc "api" (apiJSON c)
  let doc := AddMember doc "background" (.bool c.base.m_background)
  let bind := c.m_addrs.foldl (fun bind addr => PushBack bind (.string addr.addr)) []
  let doc := AddMember doc "bind" (.array bind)
  let doc := AddMember doc "colors" (.bool c.base.m_colors)
  let doc := AddMember doc "custom-diff" (.number (c.m_diff : Int))
  let doc := AddMember doc "donate-level" (.number c.base.m_donateLevel)
  let doc := AddMember doc "log-file" (stringOrNull c.base.m_logFile)
  let doc := AddMember doc "mode" (stringOrNull c.modeName)
  let pools := c.base.m_pools.foldl (fun pools pool => PushBack pools (poolJSON x pool)) []
  let doc := AddMember doc "pools" (.array pools)
  let doc := AddMember doc "retries" (.number c.base.m_retries)
  let doc := AddMember doc "retry-pause" (.number c.base.m_retryPause)
  let doc := AddMember doc "reuse-timeout" (.number c.m_reuseTimeout)
  let doc := AddMember doc "user-agent" (stringOrNull c.base.m_userAgent)
  let doc := if x.HAVE_SYSLOG_H then AddMember doc "syslog" (.bool c.base.m_syslog) else doc
  let doc := AddMember doc "verbose" (.bool c.m_verbose)
  let doc := AddMember doc "watch" (.bool c.base.m_watch)
  let doc := AddMember doc "workers" (.bool c.m_workers)
  .object doc

/-- The loop of `Config::parseJSON` over the elements of the `bind` array
(lines 268-274): an element that is not a string is skipped, a string goes
through `parseString(BindKey, .)`, whose result is not looked at. -/
def parseJSONLoop (x : Collab) : List JValue → Config → Config
  | [], c => c
  | value :: rest, c =>
    match value with
    | .string s => parseJSONLoop x rest (Config.parseString x .BindKey s c).2
    | _ => parseJSONLoop x rest c

/-- The member `Config::parseJSON` (lines 264-276). -/
def Config.parseJSON (x : Collab) (doc : JValue) (c : Config) : Config :=
  match doc.index "bind" with
  | .array items => parseJSONLoop x items c
  | _ => c

/-! ## Reading of the `bind` array -/

/-- The string elements of a JSON array, in order. -/
def stringItems : List JValue → List String
  | [] => []
  | .string s :: rest => s :: stringItems rest
  | _ :: rest => stringItems rest

/-- The valid addresses built from the string elements of the `bind` array of
a document, in document order; none when `bind` is absent or is not an
array. -/
def bindAddresses (x : Collab) (doc : JValue) : List Addr :=
  match doc.index "bind" with
  | .array items => ((stringItems items).map x.mkAddr).filter (fun a => a.isValid)
  | _ => []

/-- A document whose `bind` array holds one address text. -/
def JValue.bindSample : JValue :=
  .object [("bind", .array [.string "127.0.0.1:80"])]

/-! ## Rendering of optional strings -/

/-- The object `obj` has a member `name` whose value is Null exactly when the
optional string `p` is absent and is the JSON string `s` when `p` holds `s`. -/
def rendersOptional (obj : JValue) (name : String) (p : Option String) : Prop :=
  ∃ v : JValue, obj.FindMember name = some v ∧ name ∈ obj.keys ∧
    (v = JValue.null ↔ p = none) ∧ (∀ s : String, p = some s → v = JValue.string s)

/-! ## Sequences of calls -/

/-- One call of a member function of `Config.cpp` that changes the state, with
its arguments. -/
inductive Call where
  | parseBoolean (key : Key) (enable : Bool)
  | parseString (key : Key) (arg : String)
  | parseUint64 (key : Key) (arg : Nat)
  | parseJSON (doc : JValue)
  | setMode (mode : String)
  | setCoin (coin : String)
  | adjust

/-- The state after one call made with the collaborators `x`; the boolean
result of the call, if any, is dropped. -/
def Call.run (x : Collab) (call : Call) (c : Config) : Config :=
  match call with
  | .parseBoolean key enable => (Config.parseBoolean x key enable c).2
  | .parseString key arg => (Config.parseString x key arg c).2
  | .parseUint64 key arg => (Config.parseUint64 x key arg c).2
  | .parseJSON doc => Config.parseJSON x doc c
  | .setMode mode => Config.setMode mode c
  | .setCoin coin => Config.setCoin x coin c
  | .adjust => (Config.adjust x c).2

/-- The state after a sequence of calls.  Every call comes with the behaviour
of the collaborators during that call, so the results of the base handlers are
arbitrary from one call to the next. -/
def runCalls : List (Collab × Call) → Config → Config
  | [], c => c
  | step :: rest, c => runCalls rest (step.2.run step.1 c)

/-! ## Reload -/

/-- The parts of the loader that a reload uses, none of which is in
`Config.cpp`: `parseText` reads a JSON text and yields nothing for a malformed
one, `seed` is a fresh model with the command-line arguments applied, and
`dispatch` routes the fields of a document through the setters. -/
structure Loader where
  parseText : String → Option JValue
  seed : Config
  dispatch : JValue → Config → Config

/-- The candidate model a reload builds from a parsed document: the seed with
the fields of the document applied, then `parseJSON`. -/
def ConfigLoader.candidate (x : Collab) (ld : Loader) (doc : JValue) : Config :=
  Config.parseJSON x doc (ld.dispatch doc ld.seed)

/-- Modelled from the spec: `ConfigLoader::reload`, the function
`Config::reload` delegates to, is not among the sources.  The spec (4.6) says
that a reload repeats the load pipeline against a new model seeded from the
command-line arguments, not from the live model: parse the text, apply it, call
`adjust()`, mark the model ready; the new model replaces the live one only on
success, and on a parse error or a failed `adjust()` the live model is
untouched and failure is reported.  The result is the verdict and the live
model after the call. -/
def ConfigLoader.reload (x : Collab) (ld : Loader) (live : Config) (json : String) :
    Bool × Config :=
  match ld.parseText json with
  | none => (false, live)
  | some doc =>
    let r := Config.adjust x (ConfigLoader.candidate x ld doc)
    if r.1 then (true, { r.2 with m_ready := true }) else (false, live)

/-- The member `Config::reload` (lines 64-67), called on the live model. -/
def Config.reload (x : Collab) (ld : Loader) (json : String) (live : Config) : Bool × Config :=
  ConfigLoader.reload x ld live json

/-! ## Sample collaborators

Concrete instances of the external parts, used to evaluate the model. -/

/-- A base state with every member at a null or zero value. -/
def CommonConfig.zero : CommonConfig :=
  { m_algorithm := 0
    m_apiIPv6 := false
    m_apiRestricted := false
    m_background := false
    m_colors := false
    m_syslog := false
    m_watch := false
    m_apiToken := none
    m_apiWorkerId := none
    m_logFile := none
    m_userAgent := none
    m_apiPort := 0
    m_donateLevel := 0
    m_retries := 0
    m_retryPause := 0
    m_pools := [] }

/-- A base layer whose handlers return `verdict` for every call and leave the
base state as it is; an address counts as valid when its text has at least five
characters; the keep-alive sentinel is 60 seconds. -/
def Collab.constant (verdict : Bool) : Collab :=
  { adjust := fun b => (verdict, b)
    parseBoolean := fun _ _ b => (verdict, b)
    parseString := fun _ _ b => (verdict, b)
    parseUint64 := fun _ _ b => (verdict, b)
    algoName := fun _ => "cryptonight"
    mkAddr := fun s => { addr := s, isValid := decide (5 ≤ s.length) }
    kKeepAliveTimeout := 60
    CRYPTONIGHT_LITE := 1
    HAVE_SYSLOG_H := false }

/-- A loader that reads the text of the empty object and takes every other
text as malformed. -/
def Loader.sample : Loader :=
  { parseText := fun text => if text = "\x7b\x7d" then some (JValue.object []) else none
    seed := Config.new CommonConfig.zero
    dispatch := fun _ c => c }

/-- A base layer that accepts every call except the string call for the key
`other 1` with the empty text, and leaves the base state as it is. -/
def Collab.rejectingOne : Collab :=
  { Collab.constant true with
    parseString := fun key arg b => (!(decide (key = Key.other 1) && decide (arg = "")), b) }

/-- A pool whose keep-alive value is 60 seconds. -/
def Pool.sample : Pool :=
  { url := "pool.example.org:3333"
    user := "wallet"
    password := "x"
    keepAlive := 60
    variant := 0 }

/-! ## Theorems -/

/-- C1: whenever the base handler accepts the call, `parseUint64(CustomDiffKey, v)`
returns true and the stored custom difficulty becomes `v` when
`100 <= v < INT_MAX` and keeps its prior value otherwise; on a fresh model 99
leaves it 0, 100 sets it to 100 and `INT_MAX` leaves it 0. -/
theorem parseUint64_customDiff (x : Collab) :
    (∀ (c : Config) (v : Nat), v < 18446744073709551616 →
      (x.parseUint64 .CustomDiffKey v c.base).1 = true →
      (Config.parseUint64 x .CustomDiffKey v c).1 = true ∧
      (Config.parseUint64 x .CustomDiffKey v c).2.m_diff =
        if 100 ≤ v ∧ v < 2147483647 then v else c.m_diff) ∧
    (∀ b : CommonConfig, (x.parseUint64 .CustomDiffKey 99 b).1 = true →
      (Config.parseUint64 x .CustomDiffKey 99 (Config.new b)).2.m_diff = 0) ∧
    (∀ b : CommonConfig, (x.parseUint64 .CustomDiffKey 100 b).1 = true →
      (Config.parseUint64 x .CustomDiffKey 100 (Config.new b)).2.m_diff = 100) ∧
    (∀ b : CommonConfig, (x.parseUint64 .CustomDiffKey 2147483647 b).1 = true →
      (Config.parseUint64 x .CustomDiffKey 2147483647 (Config.new b)).2.m_diff = 0) := by
  refine ⟨?_, ?_, ?_, ?_⟩
  · intro c v _ hb
    simp only [Config.parseUint64, hb, INT_MAX]
    by_cases h : 100 ≤ v ∧ v < 2147483647
    · simp [h]
    · simp [h]
  · intro b hb
    simp [Config.parseUint64, Config.new, hb, INT_MAX]
  · intro b hb
    simp [Config.parseUint64, Config.new, hb, INT_MAX]
  · intro b hb
    simp [Config.parseUint64, Config.new, hb, INT_MAX]

/-- Witness of C1: with an accepting base, 2000 is stored over a prior 0. -/
theorem parseUint64_customDiff_witness :
    (2000 : Nat) < 18446744073709551616 ∧
    ((Collab.constant true).parseUint64 .CustomDiffKey 2000 (Config.new CommonConfig.zero).base).1 = true ∧
    (Config.parseUint64 (Collab.constant true) .CustomDiffKey 2000 (Config.new CommonConfig.zero)).1 = true ∧
    (Config.parseUint64 (Collab.constant true) .CustomDiffKey 2000 (Config.new CommonConfig.zero)).2.m_diff =
      if 100 ≤ 2000 ∧ 2000 < 2147483647 then 2000 else (Config.new CommonConfig.zero).m_diff :=
  ⟨by decide, rfl,
    (parseUint64_customDiff (Collab.constant true)).1 (Config.new CommonConfig.zero) 2000
      (by decide) rfl⟩

/-- C2: when the base adjustment succeeds, `adjust()` returns true; an empty
bind list becomes the two default addresses, built from `0.0.0.0:3333` and
`[::]:3333` in that order, and a bind list with at least one address is left as
it was. -/
theorem adjust_bind_defaults (x : Collab) (c : Config)
    (hbase : (x.adjust c.base).1 = true) :
    (Config.adjust x c).1 = true ∧
    (c.m_addrs = [] →
      (Config.adjust x c).2.m_addrs = [x.mkAddr "0.0.0.0:3333", x.mkAddr "[::]:3333"]) ∧
    (c.m_addrs ≠ [] → (Config.adjust x c).2.m_addrs = c.m_addrs) := by
  refine ⟨?_, ?_, ?_⟩
  · simp only [Config.adjust, hbase]
    by_cases h : c.m_addrs.isEmpty = true <;> simp [h]
  · intro h
    simp [Config.adjust, hbase, h]
  · intro h
    have h2 : c.m_addrs.isEmpty = false := by
      cases hl : c.m_addrs with
      | nil => exact absurd hl h
      | cons a l => rfl
    simp [Config.adjust, hbase, h2]

/-- Witness of C2: a fresh model with an accepting base receives the two
default addresses. -/
theorem adjust_bind_defaults_witness :
    ((Collab.constant true).adjust (Config.new CommonConfig.zero).base).1 = true ∧
    (Config.adjust (Collab.constant true) (Config.new CommonConfig.zero)).2.m_addrs =
      [(Collab.constant true).mkAddr "0.0.0.0:3333", (Collab.constant true).mkAddr "[::]:3333"] :=
  ⟨rfl, (adjust_bind_defaults (Collab.constant true) (Config.new CommonConfig.zero) rfl).2.1 rfl⟩

/-- C3: when the base adjustment fails, `adjust()` returns false and every
member of this layer (bind list, mode, custom difficulty, reuse-timeout, flags,
access log) is what it was before the call; an empty bind list stays empty. -/
theorem adjust_base_failure (x : Collab) (c : Config)
    (hbase : (x.adjust c.base).1 = false) :
    (Config.adjust x c).1 = false ∧
    Config.sameLayer c (Config.adjust x c).2 ∧
    (c.m_addrs = [] → (Config.adjust x c).2.m_addrs = []) := by
  refine ⟨?_, ?_, ?_⟩
  · simp [Config.adjust, hbase]
  · simp [Config.adjust, hbase, Config.sameLayer]
  · intro h
    simp [Config.adjust, hbase, h]

/-- Witness of C3: a fresh model with a rejecting base keeps its empty bind
list. -/
theorem adjust_base_failure_witness :
    ((Collab.constant false).adjust (Config.new CommonConfig.zero).base).1 = false ∧
    (Config.adjust (Collab.constant false) (Config.new CommonConfig.zero)).1 = false ∧
    (Config.adjust (Collab.constant false) (Config.new CommonConfig.zero)).2.m_addrs = [] :=
  ⟨rfl, (adjust_base_failure (Collab.constant false) (Config.new CommonConfig.zero) rfl).1,
    (adjust_base_failure (Collab.constant false) (Config.new CommonConfig.zero) rfl).2.2 rfl⟩

/-- C4: in every state `setMode("simple")` makes `modeName()` return `simple`
and `setMode("nicehash")` makes it return `nicehash`; a string that is not
exactly one of the two names (such as `bogus`, or `Simple` with a capital)
leaves the state, hence the mode and the result of `modeName()`, unchanged. -/
theorem setMode_modeName (c : Config) :
    (Config.setMode "simple" c).modeName = some "simple" ∧
    (Config.setMode "nicehash" c).modeName = some "nicehash" ∧
    (∀ s : String, s ≠ "nicehash" → s ≠ "simple" →
      (Config.setMode s c).m_mode = c.m_mode ∧
      (Config.setMode s c).modeName = c.modeName ∧
      Config.setMode s c = c) ∧
    (Config.setMode "bogus" c).modeName = c.modeName ∧
    (Config.setMode "Simple" c).modeName = c.modeName := by
  have key : ∀ s : String, s ≠ "nicehash" → s ≠ "simple" → Config.setMode s c = c := by
    intro s h1 h2
    simp [Config.setMode, modeNames, setModeLoop, h1, h2]
  refine ⟨?_, ?_, ?_, ?_, ?_⟩
  · simp [Config.setMode, modeNames, setModeLoop, Config.modeName]
  · simp [Config.setMode, modeNames, setModeLoop, Config.modeName]
  · intro s h1 h2
    rw [key s h1 h2]
    exact ⟨rfl, rfl, rfl⟩
  · rw [key "bogus" (by decide) (by decide)]
  · rw [key "Simple" (by decide) (by decide)]

/-- Witness of C4: on a model switched to `simple`, the unknown name `bogus`
keeps the mode. -/
theorem setMode_modeName_witness :
    "bogus" ≠ "nicehash" ∧ "bogus" ≠ "simple" ∧
    (Config.setMode "bogus" (Config.setMode "simple" (Config.new CommonConfig.zero))).modeName =
      (Config.setMode "simple" (Config.new CommonConfig.zero)).modeName :=
  ⟨by decide, by decide,
    ((setMode_modeName (Config.setMode "simple" (Config.new CommonConfig.zero))).2.2.1
      "bogus" (by decide) (by decide)).2.1⟩

/-- C5: whenever the base handler accepts the call, `parseString(BindKey, s)`
returns true; the bind list becomes the prior list followed by the address
built from `s` when that address is valid, and stays the prior list when it is
invalid, so an invalid address is never the last entry added. -/
theorem parseString_bind (x : Collab) (c : Config) (s : String)
    (hbase : (x.parseString .BindKey s c.base).1 = true) :
    (Config.parseString x .BindKey s c).1 = true ∧
    ((x.mkAddr s).isValid = true →
      (Config.parseString x .BindKey s c).2.m_addrs = c.m_addrs ++ [x.mkAddr s]) ∧
    ((x.mkAddr s).isValid = false →
      (Config.parseString x .BindKey s c).2.m_addrs = c.m_addrs) := by
  refine ⟨?_, ?_, ?_⟩
  · simp only [Config.parseString, hbase]
    by_cases h : (x.mkAddr s).isValid = true <;> simp [h]
  · intro h
    simp [Config.parseString, hbase, h]
  · intro h
    simp [Config.parseString, hbase, h]

/-- Witness of C5: with an accepting base a valid address is appended to an
empty bind list. -/
theorem parseString_bind_witness :
    ((Collab.constant true).parseString .BindKey "127.0.0.1:80" (Config.new CommonConfig.zero).base).1 = true ∧
    ((Collab.constant true).mkAddr "127.0.0.1:80").isValid = true ∧
    (Config.parseString (Collab.constant true) .BindKey "127.0.0.1:80" (Config.new CommonConfig.zero)).2.m_addrs =
      (Config.new CommonConfig.zero).m_addrs ++ [(Collab.constant true).mkAddr "127.0.0.1:80"] :=
  ⟨rfl, by decide,
    (parseString_bind (Collab.constant true) (Config.new CommonConfig.zero) "127.0.0.1:80" rfl).2.1
      (by decide)⟩

/-- The state after `parseString(BindKey, s)`: the base part is the one the
base handler leaves, and the address is appended exactly when the base handler
accepted and the address is valid. -/
theorem parseString_bind_state (x : Collab) (s : String) (c : Config) :
    (Config.parseString x .BindKey s c).2 =
      if (x.parseString .BindKey s c.base).1 = true ∧ (x.mkAddr s).isValid = true then
        { c with base := (x.parseString .BindKey s c.base).2, m_addrs := c.m_addrs ++ [x.mkAddr s] }
      else { c with base := (x.parseString .BindKey s c.base).2 } := by
  by_cases h1 : (x.parseString .BindKey s c.base).1 = true
  · by_cases h2 : (x.mkAddr s).isValid = true
    · simp [Config.parseString, h1, h2]
    · simp [Config.parseString, h1, h2]
  · simp [Config.parseString, h1]

/-- The loop of `parseJSON` changes no member of this layer other than the
bind list. -/
theorem parseJSONLoop_layer (x : Collab) (items : List JValue) :
    ∀ c : Config,
      (parseJSONLoop x items c).m_debug = c.m_debug ∧
      (parseJSONLoop x items c).m_ready = c.m_ready ∧
      (parseJSONLoop x items c).m_verbose = c.m_verbose ∧
      (parseJSONLoop x items c).m_workers = c.m_workers ∧
      (parseJSONLoop x items c).m_mode = c.m_mode ∧
      (parseJSONLoop x items c).m_reuseTimeout = c.m_reuseTimeout ∧
      (parseJSONLoop x items c).m_diff = c.m_diff ∧
      (parseJSONLoop x items c).m_accessLog = c.m_accessLog := by
  induction items with
  | nil => intro c; simp [parseJSONLoop]
  | cons value rest ih =>
    intro c
    cases value with
    | string s =>
      simp only [parseJSONLoop]
      obtain ⟨h1, h2, h3, h4, h5, h6, h7, h8⟩ := ih (Config.parseString x .BindKey s c).2
      have hp := parseString_bind_state x s c
      refine ⟨h1.trans ?_, h2.trans ?_, h3.trans ?_, h4.trans ?_, h5.trans ?_, h6.trans ?_,
        h7.trans ?_, h8.trans ?_⟩ <;> (rw [hp]; split <;> rfl)
    | null => simpa [parseJSONLoop] using ih c
    | bool b => simpa [parseJSONLoop] using ih c
    | number n => simpa [parseJSONLoop] using ih c
    | array l => simpa [parseJSONLoop] using ih c
    | object l => simpa [parseJSONLoop] using ih c

/-- When the base handler accepts `BindKey` for every string element, the loop
of `parseJSON` appends the valid addresses of the string elements, in order. -/
theorem parseJSONLoop_addrs (x : Collab) (items : List JValue) :
    ∀ c : Config,
      (∀ s ∈ stringItems items, ∀ b : CommonConfig, (x.parseString .BindKey s b).1 = true) →
      (parseJSONLoop x items c).m_addrs =
        c.m_addrs ++ ((stringItems items).map x.mkAddr).filter (fun a => a.isValid) := by
  induction items with
  | nil => intro c _; simp [parseJSONLoop, stringItems]
  | cons value rest ih =>
    intro c hacc
    cases value with
    | string s =>
      have hs : (x.parseString .BindKey s c.base).1 = true :=
        hacc s (by simp [stringItems]) c.base
      have hrest : ∀ t ∈ stringItems rest, ∀ b : CommonConfig,
          (x.parseString .BindKey t b).1 = true := by
        intro t ht b
        exact hacc t (by simp [stringItems, ht]) b
      simp only [parseJSONLoop, stringItems]
      rw [ih _ hrest, parseString_bind_state]
      by_cases hv : (x.mkAddr s).isValid = true
      · simp [hs, hv, List.filter_cons]
      · simp [hs, hv, List.filter_cons]
    | null => simpa [parseJSONLoop, stringItems] using ih c hacc
    | bool b => simpa [parseJSONLoop, stringItems] using ih c hacc
    | number n => simpa [parseJSONLoop, stringItems] using ih c hacc
    | array l => simpa [parseJSONLoop, stringItems] using ih c hacc
    | object l => simpa [parseJSONLoop, stringItems] using ih c hacc

/-- C6, as stated, fails: with a base handler that rejects every string call,
the document `bind: ["127.0.0.1:80"]` holds one valid address, yet `parseJSON`
leaves the bind list of a fresh model empty. -/
theorem parseJSON_bind_rejected :
    bindAddresses (Collab.constant false) JValue.bindSample =
      [(Collab.constant false).mkAddr "127.0.0.1:80"] ∧
    ((Collab.constant false).mkAddr "127.0.0.1:80").isValid = true ∧
    (Config.parseJSON (Collab.constant false) JValue.bindSample (Config.new CommonConfig.zero)).m_addrs = [] ∧
    (Config.parseJSON (Collab.constant false) JValue.bindSample (Config.new CommonConfig.zero)).m_addrs ≠
      (Config.new CommonConfig.zero).m_addrs ++ bindAddresses (Collab.constant false) JValue.bindSample := by
  refine ⟨?_, ?_, ?_, ?_⟩ <;> decide

/-- C6, amended: `parseJSON` changes no member of this layer other than the
bind list; when the base handler accepts `BindKey` for every string element of
the `bind` array, the bind list becomes the prior list followed by the valid
addresses built from those string elements, in document order, every other
element being skipped; when `bind` is absent or is not an array the state is
unchanged. -/
theorem parseJSON_bind (x : Collab) (doc : JValue) (c : Config) :
    (∀ items : List JValue, doc.index "bind" = .array items →
      (∀ s ∈ stringItems items, ∀ b : CommonConfig, (x.parseString .BindKey s b).1 = true) →
      (Config.parseJSON x doc c).m_addrs = c.m_addrs ++ bindAddresses x doc) ∧
    (doc.FindMember "bind" = none → Config.parseJSON x doc c = c) ∧
    (∀ v : JValue, doc.FindMember "bind" = some v → (∀ items, v ≠ .array items) →
      Config.parseJSON x doc c = c) ∧
    ((Config.parseJSON x doc c).m_debug = c.m_debug ∧
      (Config.parseJSON x doc c).m_ready = c.m_ready ∧
      (Config.parseJSON x doc c).m_verbose = c.m_verbose ∧
      (Config.parseJSON x doc c).m_workers = c.m_workers ∧
      (Config.parseJSON x doc c).m_mode = c.m_mode ∧
      (Config.parseJSON x doc c).m_reuseTimeout = c.m_reuseTimeout ∧
      (Config.parseJSON x doc c).m_diff = c.m_diff ∧
      (Config.parseJSON x doc c).m_accessLog = c.m_accessLog) := by
  refine ⟨?_, ?_, ?_, ?_⟩
  · intro items hitems hacc
    simp only [Config.parseJSON, bindAddresses, hitems]
    exact parseJSONLoop_addrs x items c hacc
  · intro h
    simp [Config.parseJSON, JValue.index, h]
  · intro v h hv
    simp only [Config.parseJSON, JValue.index, h]
  · simp only [Config.parseJSON]
    cases doc.index "bind" with
    | array l => exact parseJSONLoop_layer x l c
    | _ => exact ⟨rfl, rfl, rfl, rfl, rfl, rfl, rfl, rfl⟩

/-- Witness of C6 amended: with an accepting base the address of the sample
document is appended to the empty bind list of a fresh model. -/
theorem parseJSON_bind_witness :
    JValue.bindSample.index "bind" = .array [.string "127.0.0.1:80"] ∧
    (∀ s ∈ stringItems [JValue.string "127.0.0.1:80"], ∀ b : CommonConfig,
      ((Collab.constant true).parseString .BindKey s b).1 = true) ∧
    (Config.parseJSON (Collab.constant true) JValue.bindSample (Config.new CommonConfig.zero)).m_addrs =
      (Config.new CommonConfig.zero).m_addrs ++ bindAddresses (Collab.constant true) JValue.bindSample :=
  ⟨rfl, fun _ _ _ => rfl,
    (parseJSON_bind (Collab.constant true) JValue.bindSample (Config.new CommonConfig.zero)).1
      [.string "127.0.0.1:80"] rfl (fun _ _ _ => rfl)⟩

/-- C7, as stated, fails.  With a base handler that returns true (the key was
handled), each setter goes on to its own keys and modifies a member of this
layer: `parseBoolean(VerboseKey, true)` sets `m_verbose`,
`parseString(AccessLogFileKey, "a.log")` sets `m_accessLog` and
`parseUint64(CustomDiffKey, 500)` sets `m_diff`.  With a base handler that
returns false (its negative result) the same calls attempt no key of this
layer. -/
theorem setters_own_keys_after_base_true :
    (((Collab.constant true).parseBoolean .VerboseKey true (Config.new CommonConfig.zero).base).1 = true ∧
      (Config.new CommonConfig.zero).m_verbose = false ∧
      (Config.parseBoolean (Collab.constant true) .VerboseKey true (Config.new CommonConfig.zero)).2.m_verbose = true) ∧
    (((Collab.constant true).parseString .AccessLogFileKey "a.log" (Config.new CommonConfig.zero).base).1 = true ∧
      (Config.new CommonConfig.zero).m_accessLog = none ∧
      (Config.parseString (Collab.constant true) .AccessLogFileKey "a.log" (Config.new CommonConfig.zero)).2.m_accessLog =
        some "a.log") ∧
    (((Collab.constant true).parseUint64 .CustomDiffKey 500 (Config.new CommonConfig.zero).base).1 = true ∧
      (Config.new CommonConfig.zero).m_diff = 0 ∧
      (Config.parseUint64 (Collab.constant true) .CustomDiffKey 500 (Config.new CommonConfig.zero)).2.m_diff = 500) ∧
    (((Collab.constant false).parseBoolean .VerboseKey true (Config.new CommonConfig.zero).base).1 = false ∧
      Config.parseBoolean (Collab.constant false) .VerboseKey true (Config.new CommonConfig.zero) =
        (false, Config.new CommonConfig.zero)) ∧
    (((Collab.constant false).parseString .AccessLogFileKey "a.log" (Config.new CommonConfig.zero).base).1 = false ∧
      Config.parseString (Collab.constant false) .AccessLogFileKey "a.log" (Config.new CommonConfig.zero) =
        (false, Config.new CommonConfig.zero)) ∧
    (((Collab.constant false).parseUint64 .CustomDiffKey 500 (Config.new CommonConfig.zero).base).1 = false ∧
      Config.parseUint64 (Collab.constant false) .CustomDiffKey 500 (Config.new CommonConfig.zero) =
        (false, Config.new CommonConfig.zero)) := by
  refine ⟨⟨?_, ?_, ?_⟩, ⟨?_, ?_, ?_⟩, ⟨?_, ?_, ?_⟩, ⟨?_, ?_⟩, ⟨?_, ?_⟩, ⟨?_, ?_⟩⟩ <;> decide

/-- C7, amended: each of the three setters first delegates to the base handler
and attempts the keys of this layer only if the base handler returned true.
When the base handler returned false the setter returns false and its state is
the prior state with the base part left by the base handler, so no member of
this layer is modified; hence a call that modifies a member of this layer is a
call whose base handler returned true. -/
theorem setters_delegate_first (x : Collab) (key : Key) (c : Config) :
    (∀ enable : Bool, (x.parseBoolean key enable c.base).1 = false →
      Config.parseBoolean x key enable c =
        (false, { c with base := (x.parseBoolean key enable c.base).2 })) ∧
    (∀ arg : String, (x.parseString key arg c.base).1 = false →
      Config.parseString x key arg c =
        (false, { c with base := (x.parseString key arg c.base).2 })) ∧
    (∀ arg : Nat, (x.parseUint64 key arg c.base).1 = false →
      Config.parseUint64 x key arg c =
        (false, { c with base := (x.parseUint64 key arg c.base).2 })) ∧
    (∀ enable : Bool, ¬ Config.sameLayer c (Config.parseBoolean x key enable c).2 →
      (x.parseBoolean key enable c.base).1 = true) ∧
    (∀ arg : String, ¬ Config.sameLayer c (Config.parseString x key arg c).2 →
      (x.parseString key arg c.base).1 = true) ∧
    (∀ arg : Nat, ¬ Config.sameLayer c (Config.parseUint64 x key arg c).2 →
      (x.parseUint64 key arg c.base).1 = true) := by
  have hb : ∀ enable : Bool, (x.parseBoolean key enable c.base).1 = false →
      Config.parseBoolean x key enable c =
        (false, { c with base := (x.parseBoolean key enable c.base).2 }) := by
    intro enable h
    simp [Config.parseBoolean, h]
  have hs : ∀ arg : String, (x.parseString key arg c.base).1 = false →
      Config.parseString x key arg c =
        (false, { c with base := (x.parseString key arg c.base).2 }) := by
    intro arg h
    simp [Config.parseString, h]
  have hu : ∀ arg : Nat, (x.parseUint64 key arg c.base).1 = false →
      Config.parseUint64 x key arg c =
        (false, { c with base := (x.parseUint64 key arg c.base).2 }) := by
    intro arg h
    simp [Config.parseUint64, h]
  refine ⟨hb, hs, hu, ?_, ?_, ?_⟩
  · intro enable hne
    by_contra hcon
    have hf : (x.parseBoolean key enable c.base).1 = false := by simpa using hcon
    exact hne (by rw [hb enable hf]; simp [Config.sameLayer])
  · intro arg hne
    by_contra hcon
    have hf : (x.parseString key arg c.base).1 = false := by simpa using hcon
    exact hne (by rw [hs arg hf]; simp [Config.sameLayer])
  · intro arg hne
    by_contra hcon
    have hf : (x.parseUint64 key arg c.base).1 = false := by simpa using hcon
    exact hne (by rw [hu arg hf]; simp [Config.sameLayer])

/-- Witness of C7 amended: with a rejecting base, `parseUint64(CustomDiffKey,
500)` on a fresh model returns false and keeps the state. -/
theorem setters_delegate_first_witness :
    ((Collab.constant false).parseUint64 .CustomDiffKey 500 (Config.new CommonConfig.zero).base).1 = false ∧
    Config.parseUint64 (Collab.constant false) .CustomDiffKey 500 (Config.new CommonConfig.zero) =
      (false, { Config.new CommonConfig.zero with
        base := ((Collab.constant false).parseUint64 .CustomDiffKey 500 (Config.new CommonConfig.zero).base).2 }) :=
  ⟨rfl, (setters_delegate_first (Collab.constant false) .CustomDiffKey (Config.new CommonConfig.zero)).2.2.1
    500 rfl⟩

/-- A loop that pushes one rendered value per element builds the rendered
list, in order, after the values already present. -/
theorem foldl_PushBack {α : Type} (f : α → JValue) (l : List α) :
    ∀ init : List JValue,
      l.foldl (fun acc a => PushBack acc (f a)) init = init ++ l.map f := by
  induction l with
  | nil => intro init; simp
  | cons a rest ih =>
    intro init
    rw [List.foldl_cons, ih]
    simp [PushBack]

/-- The member list of the document built by `getJSON`. -/
theorem getJSON_members (x : Collab) (c : Config) :
    Config.getJSON x c = .object (
      [("access-log-file", stringOrNull c.m_accessLog),
       ("algo", .string (x.algoName c.base)),
       ("api", apiJSON c),
       ("background", .bool c.base.m_background),
       ("bind", .array (c.m_addrs.map (fun addr => JValue.string addr.addr))),
       ("colors", .bool c.base.m_colors),
       ("custom-diff", .number (c.m_diff : Int)),
       ("donate-level", .number c.base.m_donateLevel),
       ("log-file", stringOrNull c.base.m_logFile),
       ("mode", stringOrNull c.modeName),
       ("pools", .array (c.base.m_pools.map (poolJSON x))),
       ("retries", .number c.base.m_retries),
       ("retry-pause", .number c.base.m_retryPause),
       ("reuse-timeout", .number c.m_reuseTimeout),
       ("user-agent", stringOrNull c.base.m_userAgent)] ++
      (if x.HAVE_SYSLOG_H = true then [("syslog", JValue.bool c.base.m_syslog)] else []) ++
      [("verbose", .bool c.m_verbose),
       ("watch", .bool c.base.m_watch),
       ("workers", .bool c.m_workers)]) := by
  unfold Config.getJSON
  simp only [foldl_PushBack, AddMember]
  cases x.HAVE_SYSLOG_H <;> simp

/-- The member list of the object `api`. -/
theorem apiJSON_members (c : Config) :
    apiJSON c = .object
      [("port", .number c.base.m_apiPort),
       ("access-token", stringOrNull c.base.m_apiToken),
       ("worker-id", stringOrNull c.base.m_apiWorkerId),
       ("ipv6", .bool c.base.m_apiIPv6),
       ("restricted", .bool c.base.m_apiRestricted)] := by
  simp [apiJSON, AddMember]

/-- The `keepalive` member of the object rendered for one pool. -/
theorem poolJSON_keepalive (x : Collab) (pool : Pool) :
    (poolJSON x pool).FindMember "keepalive" =
      some (if pool.keepAlive = 0 ∨ pool.keepAlive = x.kKeepAliveTimeout then
        JValue.bool (decide (pool.keepAlive > 0)) else JValue.number pool.keepAlive) := by
  unfold poolJSON
  by_cases h : pool.keepAlive = 0 ∨ pool.keepAlive = x.kKeepAliveTimeout
  · simp [h, AddMember, JValue.FindMember, List.find?]
  · simp [h, AddMember, JValue.FindMember, List.find?]

/-- The value rendered for an optional string is Null exactly when the string
is absent, and is the string itself otherwise. -/
theorem stringOrNull_cases (p : Option String) :
    (stringOrNull p = JValue.null ↔ p = none) ∧
    (∀ s : String, p = some s → stringOrNull p = JValue.string s) := by
  cases p with
  | none => simp [stringOrNull]
  | some t => simp [stringOrNull]

/-- C8: `getJSON` renders `pools` as one object per pool of the model, and for
every pool of the model the member `keepalive` of its object is the boolean
true if and only if the stored keep-alive value equals the sentinel
`Pool::kKeepAliveTimeout`, the boolean false if and only if the stored value
is 0, and the stored integer in every other case.  The sentinel, a timeout in
seconds defined outside this file, is taken to be positive. -/
theorem getJSON_keepalive (x : Collab) (c : Config) (hK : 0 < x.kKeepAliveTimeout) :
    (Config.getJSON x c).FindMember "pools" =
      some (JValue.array (c.base.m_pools.map (poolJSON x))) ∧
    ∀ pool ∈ c.base.m_pools,
      ((poolJSON x pool).FindMember "keepalive" = some (JValue.bool true) ↔
        pool.keepAlive = x.kKeepAliveTimeout) ∧
      ((poolJSON x pool).FindMember "keepalive" = some (JValue.bool false) ↔
        pool.keepAlive = 0) ∧
      (pool.keepAlive ≠ 0 → pool.keepAlive ≠ x.kKeepAliveTimeout →
        (poolJSON x pool).FindMember "keepalive" = some (JValue.number pool.keepAlive)) := by
  refine ⟨?_, ?_⟩
  · rw [getJSON_members]
    simp [JValue.FindMember, List.find?]
  · intro pool _
    rw [poolJSON_keepalive]
    by_cases h0 : pool.keepAlive = 0
    · have hne : pool.keepAlive ≠ x.kKeepAliveTimeout := by omega
      simp [h0]
      omega
    · by_cases hk : pool.keepAlive = x.kKeepAliveTimeout
      · have hpos : 0 < pool.keepAlive := by omega
        simp [h0, hk, hK]
        omega
      · simp [h0, hk]

/-- Witness of C8: with the sentinel at 60 seconds, a pool storing 60 renders
`keepalive` as true. -/
theorem getJSON_keepalive_witness :
    0 < (Collab.constant true).kKeepAliveTimeout ∧
    ((poolJSON (Collab.constant true) Pool.sample).FindMember "keepalive" = some (JValue.bool true) ↔
      Pool.sample.keepAlive = (Collab.constant true).kKeepAliveTimeout) :=
  ⟨by decide,
    ((getJSON_keepalive (Collab.constant true)
      (Config.new { CommonConfig.zero with m_pools := [Pool.sample] }) (by decide)).2
        Pool.sample (List.mem_singleton.mpr rfl)).1⟩

/-- C9: in every state the top-level keys of the object built by `getJSON` are
access-log-file, algo, api, background, bind, colors, custom-diff,
donate-level, log-file, mode, pools, retries, retry-pause, reuse-timeout,
user-agent, then syslog only in a build with `HAVE_SYSLOG_H`, then verbose,
watch, workers, in this order; and the keys of the nested `api` object are
port, access-token, worker-id, ipv6, restricted, in this order. -/
theorem getJSON_key_order (x : Collab) (c : Config) :
    (Config.getJSON x c).keys =
      ["access-log-file", "algo", "api", "background", "bind", "colors", "custom-diff",
       "donate-level", "log-file", "mode", "pools", "retries", "retry-pause",
       "reuse-timeout", "user-agent"] ++
      (if x.HAVE_SYSLOG_H = true then ["syslog"] else []) ++
      ["verbose", "watch", "workers"] ∧
    ∃ api : JValue, (Config.getJSON x c).FindMember "api" = some api ∧
      api.keys = ["port", "access-token", "worker-id", "ipv6", "restricted"] := by
  refine ⟨?_, apiJSON c, ?_, ?_⟩
  · rw [getJSON_members]
    cases x.HAVE_SYSLOG_H <;> simp [JValue.keys]
  · rw [getJSON_members]
    simp [JValue.FindMember, List.find?]
  · rw [apiJSON_members]
    simp [JValue.keys]

/-- C10: in every state the object built by `getJSON` contains the keys
access-log-file, log-file and user-agent, and its `api` object contains the
keys access-token and worker-id; the value of each is Null if and only if the
string is absent in the model, and is otherwise the JSON string equal to the
stored string. -/
theorem getJSON_optional_strings (x : Collab) (c : Config) :
    rendersOptional (Config.getJSON x c) "access-log-file" c.m_accessLog ∧
    rendersOptional (Config.getJSON x c) "log-file" c.base.m_logFile ∧
    rendersOptional (Config.getJSON x c) "user-agent" c.base.m_userAgent ∧
    ∃ api : JValue, (Config.getJSON x c).FindMember "api" = some api ∧
      rendersOptional api "access-token" c.base.m_apiToken ∧
      rendersOptional api "worker-id" c.base.m_apiWorkerId := by
  refine ⟨⟨stringOrNull c.m_accessLog, ?_, ?_, stringOrNull_cases _⟩,
    ⟨stringOrNull c.base.m_logFile, ?_, ?_, stringOrNull_cases _⟩,
    ⟨stringOrNull c.base.m_userAgent, ?_, ?_, stringOrNull_cases _⟩,
    apiJSON c, ?_,
    ⟨stringOrNull c.base.m_apiToken, ?_, ?_, stringOrNull_cases _⟩,
    ⟨stringOrNull c.base.m_apiWorkerId, ?_, ?_, stringOrNull_cases _⟩⟩
  · rw [getJSON_members]; simp [JValue.FindMember, List.find?]
  · rw [getJSON_members]; simp [JValue.keys]
  · rw [getJSON_members]; simp [JValue.FindMember, List.find?]
  · rw [getJSON_members]; simp [JValue.keys]
  · rw [getJSON_members]; simp [JValue.FindMember, List.find?]
  · rw [getJSON_members]; simp [JValue.keys]
  · rw [getJSON_members]; simp [JValue.FindMember, List.find?]
  · rw [apiJSON_members]; simp [JValue.FindMember, List.find?]
  · rw [apiJSON_members]; simp [JValue.keys]
  · rw [apiJSON_members]; simp [JValue.FindMember, List.find?]
  · rw [apiJSON_members]; simp [JValue.keys]

/-- The member names of the object rendered for one pool. -/
theorem poolJSON_keys (x : Collab) (pool : Pool) :
    (poolJSON x pool).keys = ["url", "user", "pass", "keepalive", "variant"] := by
  unfold poolJSON
  by_cases h : pool.keepAlive = 0 ∨ pool.keepAlive = x.kKeepAliveTimeout
  · simp [h, AddMember, JValue.keys]
  · simp [h, AddMember, JValue.keys]

/-- C11: in every state `getJSON` renders `bind` as the array of the texts of
the addresses of the bind list, one string per address in list order, and
`pools` as the array of one object per pool in list order, each object with
the members url, user, pass, keepalive, variant in this order; both arrays are
present, and empty, when the corresponding list is empty. -/
theorem getJSON_arrays (x : Collab) (c : Config) :
    (Config.getJSON x c).FindMember "bind" =
      some (JValue.array (c.m_addrs.map (fun addr => JValue.string addr.addr))) ∧
    (Config.getJSON x c).FindMember "pools" =
      some (JValue.array (c.base.m_pools.map (poolJSON x))) ∧
    (c.m_addrs.map (fun addr => JValue.string addr.addr)).length = c.m_addrs.length ∧
    (c.base.m_pools.map (poolJSON x)).length = c.base.m_pools.length ∧
    (∀ pool : Pool, (poolJSON x pool).keys = ["url", "user", "pass", "keepalive", "variant"]) ∧
    (c.m_addrs = [] → (Config.getJSON x c).FindMember "bind" = some (JValue.array [])) ∧
    (c.base.m_pools = [] → (Config.getJSON x c).FindMember "pools" = some (JValue.array [])) := by
  have hbind : (Config.getJSON x c).FindMember "bind" =
      some (JValue.array (c.m_addrs.map (fun addr => JValue.string addr.addr))) := by
    rw [getJSON_members]
    simp [JValue.FindMember, List.find?]
  have hpools : (Config.getJSON x c).FindMember "pools" =
      some (JValue.array (c.base.m_pools.map (poolJSON x))) := by
    rw [getJSON_members]
    simp [JValue.FindMember, List.find?]
  refine ⟨hbind, hpools, by simp, by simp, poolJSON_keys x, ?_, ?_⟩
  · intro h
    rw [hbind, h]
    rfl
  · intro h
    rw [hpools, h]
    rfl

/-- Witness of C11: a fresh model, whose bind list is empty, renders `bind` as
the empty array. -/
theorem getJSON_arrays_witness :
    (Config.new CommonConfig.zero).m_addrs = [] ∧
    (Config.getJSON (Collab.constant true) (Config.new CommonConfig.zero)).FindMember "bind" =
      some (JValue.array []) :=
  ⟨rfl, (getJSON_arrays (Collab.constant true) (Config.new CommonConfig.zero)).2.2.2.2.2.1 rfl⟩

/-- The test of `setCoin` succeeds exactly when the first four characters of
the text, lowered, spell `aeon`. -/
theorem strncasecmpEq_aeon (l : List Char) :
    strncasecmpEq l ['a', 'e', 'o', 'n'] 4 = true ↔
      (l.take 4).map tolower = ['a', 'e', 'o', 'n'] := by
  have ha : tolower 'a' = 'a' := by decide
  have he : tolower 'e' = 'e' := by decide
  have ho : tolower 'o' = 'o' := by decide
  have hn : tolower 'n' = 'n' := by decide
  rcases l with _ | ⟨c1, _ | ⟨c2, _ | ⟨c3, _ | ⟨c4, rest⟩⟩⟩⟩
  · simp [strncasecmpEq]
  · simp [strncasecmpEq, ha]
  · simp [strncasecmpEq, ha, he]
  · simp [strncasecmpEq, ha, he, ho]
  · simp only [strncasecmpEq, ha, he, ho, hn, List.take, List.map]
    by_cases h1 : tolower c1 = 'a' <;> by_cases h2 : tolower c2 = 'e' <;>
      by_cases h3 : tolower c3 = 'o' <;> by_cases h4 : tolower c4 = 'n' <;>
      simp [h1, h2, h3, h4]

/-- C12, as stated, fails: `aeonx` is not equal to `aeon` under ASCII
case-insensitive comparison, yet `setCoin("aeonx")` changes the algorithm of a
model from 0 to `CRYPTONIGHT_LITE` (here 1). -/
theorem setCoin_aeonx :
    "aeonx".toList.map tolower ≠ "aeon".toList ∧
    (Config.new CommonConfig.zero).base.m_algorithm = 0 ∧
    (Config.setCoin (Collab.constant true) "aeonx" (Config.new CommonConfig.zero)).base.m_algorithm = 1 ∧
    Config.setCoin (Collab.constant true) "aeonx" (Config.new CommonConfig.zero) ≠
      Config.new CommonConfig.zero := by
  refine ⟨?_, ?_, ?_, ?_⟩ <;> decide

/-- C12, amended: `setCoin(name)` sets the algorithm to `CRYPTONIGHT_LITE`,
and changes nothing else, if the first four characters of `name` equal `aeon`
under ASCII case-insensitive comparison; this holds in particular when the
whole of `name` equals `aeon` in that comparison.  For every other string the
whole model is unchanged. -/
theorem setCoin_first_four (x : Collab) (coin : String) (c : Config) :
    ((coin.toList.take 4).map tolower = ['a', 'e', 'o', 'n'] →
      Config.setCoin x coin c =
        { c with base := { c.base with m_algorithm := x.CRYPTONIGHT_LITE } }) ∧
    (coin.toList.map tolower = ['a', 'e', 'o', 'n'] →
      (Config.setCoin x coin c).base.m_algorithm = x.CRYPTONIGHT_LITE) ∧
    ((coin.toList.take 4).map tolower ≠ ['a', 'e', 'o', 'n'] →
      Config.setCoin x coin c = c) := by
  have hdef : Config.setCoin x coin c =
      if strncasecmpEq coin.toList ['a', 'e', 'o', 'n'] 4 = true then
        { c with base := { c.base with m_algorithm := x.CRYPTONIGHT_LITE } }
      else c := rfl
  have hyes : (coin.toList.take 4).map tolower = ['a', 'e', 'o', 'n'] →
      Config.setCoin x coin c =
        { c with base := { c.base with m_algorithm := x.CRYPTONIGHT_LITE } } := by
    intro h
    have ht := (strncasecmpEq_aeon coin.toList).mpr h
    rw [hdef, ht]
    rfl
  refine ⟨hyes, ?_, ?_⟩
  · intro h
    have h4 : (coin.toList.take 4).map tolower = ['a', 'e', 'o', 'n'] := by
      rw [List.map_take, h]
      rfl
    rw [hyes h4]
  · intro h
    have ht : strncasecmpEq coin.toList ['a', 'e', 'o', 'n'] 4 = false := by
      cases hb : strncasecmpEq coin.toList ['a', 'e', 'o', 'n'] 4 with
      | false => rfl
      | true => exact absurd ((strncasecmpEq_aeon coin.toList).mp hb) h
    rw [hdef, ht]
    rfl

/-- Witness of C12 amended: `AEONx` starts with `aeon` up to case and sets the
algorithm; `monero` does not and leaves the model unchanged. -/
theorem setCoin_first_four_witness :
    ("AEONx".toList.take 4).map tolower = ['a', 'e', 'o', 'n'] ∧
    Config.setCoin (Collab.constant true) "AEONx" (Config.new CommonConfig.zero) =
      { Config.new CommonConfig.zero with
        base := { (Config.new CommonConfig.zero).base with
          m_algorithm := (Collab.constant true).CRYPTONIGHT_LITE } } ∧
    ("monero".toList.take 4).map tolower ≠ ['a', 'e', 'o', 'n'] ∧
    Config.setCoin (Collab.constant true) "monero" (Config.new CommonConfig.zero) =
      Config.new CommonConfig.zero :=
  ⟨by decide,
    (setCoin_first_four (Collab.constant true) "AEONx" (Config.new CommonConfig.zero)).1 (by decide),
    by decide,
    (setCoin_first_four (Collab.constant true) "monero" (Config.new CommonConfig.zero)).2.2 (by decide)⟩

/-- C13, as stated, fails: with an accepting base, `parseUint64(ReuseTimeoutKey,
2147483648)` returns true but stores -2147483648, and
`parseUint64(ReuseTimeoutKey, 4294967296)` stores 0; neither stored value
equals the argument. -/
theorem parseUint64_reuseTimeout_narrowed :
    (2147483648 : Nat) < 18446744073709551616 ∧
    ((Collab.constant true).parseUint64 .ReuseTimeoutKey 2147483648 (Config.new CommonConfig.zero).base).1 = true ∧
    (Config.parseUint64 (Collab.constant true) .ReuseTimeoutKey 2147483648
      (Config.new CommonConfig.zero)).1 = true ∧
    (Config.parseUint64 (Collab.constant true) .ReuseTimeoutKey 2147483648
      (Config.new CommonConfig.zero)).2.m_reuseTimeout = -2147483648 ∧
    (Config.parseUint64 (Collab.constant true) .ReuseTimeoutKey 2147483648
      (Config.new CommonConfig.zero)).2.m_reuseTimeout ≠ ((2147483648 : Nat) : Int) ∧
    (Config.parseUint64 (Collab.constant true) .ReuseTimeoutKey 4294967296
      (Config.new CommonConfig.zero)).2.m_reuseTimeout = 0 := by
  refine ⟨?_, ?_, ?_, ?_, ?_, ?_⟩ <;> decide

/-- C13, amended: whenever the base handler accepts the call,
`parseUint64(ReuseTimeoutKey, v)` returns true for every unsigned 64-bit `v`
(no value is rejected) and stores `v` converted to a 32-bit `int`: the stored
reuse-timeout equals `v` when `v <= INT_MAX`, and in general is the number in
`[-2^31, 2^31)` that differs from `v` by a multiple of `2^32`. -/
theorem parseUint64_reuseTimeout (x : Collab) (c : Config) (v : Nat)
    (hv : v < 18446744073709551616)
    (hbase : (x.parseUint64 .ReuseTimeoutKey v c.base).1 = true) :
    (Config.parseUint64 x .ReuseTimeoutKey v c).1 = true ∧
    (Config.parseUint64 x .ReuseTimeoutKey v c).2.m_reuseTimeout = static_cast_int v ∧
    (v ≤ 2147483647 → (Config.parseUint64 x .ReuseTimeoutKey v c).2.m_reuseTimeout = (v : Int)) ∧
    -2147483648 ≤ (Config.parseUint64 x .ReuseTimeoutKey v c).2.m_reuseTimeout ∧
    (Config.parseUint64 x .ReuseTimeoutKey v c).2.m_reuseTimeout < 2147483648 ∧
    ((v : Int) - (Config.parseUint64 x .ReuseTimeoutKey v c).2.m_reuseTimeout) % 4294967296 = 0 := by
  have hret : (Config.parseUint64 x .ReuseTimeoutKey v c).1 = true := by
    simp [Config.parseUint64, hbase]
  have hst : (Config.parseUint64 x .ReuseTimeoutKey v c).2.m_reuseTimeout = static_cast_int v := by
    simp [Config.parseUint64, hbase]
  rw [hst]
  refine ⟨hret, rfl, ?_, ?_, ?_, ?_⟩
  · intro h
    unfold static_cast_int
    split <;> omega
  · unfold static_cast_int
    split <;> omega
  · unfold static_cast_int
    split <;> omega
  · unfold static_cast_int
    split <;> omega

/-- Witness of C13 amended: 3600 seconds are stored as 3600. -/
theorem parseUint64_reuseTimeout_witness :
    (3600 : Nat) < 18446744073709551616 ∧
    ((Collab.constant true).parseUint64 .ReuseTimeoutKey 3600 (Config.new CommonConfig.zero).base).1 = true ∧
    (3600 : Nat) ≤ 2147483647 ∧
    (Config.parseUint64 (Collab.constant true) .ReuseTimeoutKey 3600
      (Config.new CommonConfig.zero)).2.m_reuseTimeout = ((3600 : Nat) : Int) :=
  ⟨by decide, rfl, by decide,
    (parseUint64_reuseTimeout (Collab.constant true) (Config.new CommonConfig.zero) 3600
      (by decide) rfl).2.2.1 (by decide)⟩

/-- The effect of `setMode` on the state: only `m_mode` may change, and a new
value is an index of the table. -/
theorem setMode_frame (mode : String) (c : Config) :
    (Config.setMode mode c = c ∨ Config.setMode mode c = { c with m_mode := 0 } ∨
      Config.setMode mode c = { c with m_mode := 1 }) := by
  by_cases h0 : mode = "nicehash"
  · right; left
    simp [Config.setMode, modeNames, setModeLoop, h0]
  · by_cases h1 : mode = "simple"
    · right; right
      simp [Config.setMode, modeNames, setModeLoop, h1]
    · left
      simp [Config.setMode, modeNames, setModeLoop, h0, h1]

/-- The effect of `parseBoolean` on the custom difficulty and on the mode. -/
theorem parseBoolean_frame (x : Collab) (key : Key) (enable : Bool) (c : Config) :
    (Config.parseBoolean x key enable c).2.m_diff = c.m_diff ∧
    (Config.parseBoolean x key enable c).2.m_mode = c.m_mode := by
  cases hb : (x.parseBoolean key enable c.base).1 <;> cases key <;>
    simp [Config.parseBoolean, hb]

/-- The effect of `parseUint64` on the custom difficulty and on the mode. -/
theorem parseUint64_frame (x : Collab) (key : Key) (arg : Nat) (c : Config) :
    ((Config.parseUint64 x key arg c).2.m_diff = c.m_diff ∨
      (100 ≤ (Config.parseUint64 x key arg c).2.m_diff ∧
        (Config.parseUint64 x key arg c).2.m_diff < 2147483647)) ∧
    (Config.parseUint64 x key arg c).2.m_mode = c.m_mode := by
  cases hb : (x.parseUint64 key arg c.base).1 <;> cases key <;>
    simp [Config.parseUint64, hb, INT_MAX]
  all_goals
    by_cases h : 100 ≤ arg ∧ arg < 2147483647
    · simp [h]
    · simp [h]

/-- The effect of `parseString` on the custom difficulty and on the mode. -/
theorem parseString_frame (x : Collab) (key : Key) (arg : String) (c : Config) :
    ((Config.parseString x key arg c).2.m_diff = c.m_diff ∨
      (100 ≤ (Config.parseString x key arg c).2.m_diff ∧
        (Config.parseString x key arg c).2.m_diff < 2147483647)) ∧
    ((Config.parseString x key arg c).2.m_mode = c.m_mode ∨
      (Config.parseString x key arg c).2.m_mode = 0 ∨
      (Config.parseString x key arg c).2.m_mode = 1) := by
  cases hb : (x.parseString key arg c.base).1
  · simp [Config.parseString, hb]
  · cases key with
    | ModeKey =>
      simp only [Config.parseString, hb]
      rcases setMode_frame arg { c with base := (x.parseString .ModeKey arg c.base).2 } with h | h | h <;>
        simp [h]
    | BindKey =>
      rw [parseString_bind_state]
      split <;> simp
    | CoinKey => simp [Config.parseString, hb]
    | AccessLogFileKey => simp [Config.parseString, hb]
    | VerboseKey =>
      simp only [Config.parseString, hb]
      have h := parseBoolean_frame x .VerboseKey true { c with base := (x.parseString .VerboseKey arg c.base).2 }
      simp [h.1, h.2]
    | DebugKey =>
      simp only [Config.parseString, hb]
      have h := parseBoolean_frame x .DebugKey true { c with base := (x.parseString .DebugKey arg c.base).2 }
      simp [h.1, h.2]
    | WorkersKey =>
      simp only [Config.parseString, hb]
      have h := parseBoolean_frame x .WorkersKey false { c with base := (x.parseString .WorkersKey arg c.base).2 }
      simp [h.1, h.2]
    | CustomDiffKey =>
      simp only [Config.parseString, hb]
      have h := parseUint64_frame x .CustomDiffKey (to_uint64 (strtol arg))
        { c with base := (x.parseString .CustomDiffKey arg c.base).2 }
      exact ⟨h.1, Or.inl h.2⟩
    | ReuseTimeoutKey => simp [Config.parseString, hb]
    | other code => simp [Config.parseString, hb]

/-- The effect of one call on the custom difficulty and on the mode: the
difficulty keeps its value or enters `[100, INT_MAX)`, the mode keeps its value
or becomes an index of the table. -/
theorem Call.run_frame (x : Collab) (call : Call) (c : Config) :
    ((call.run x c).m_diff = c.m_diff ∨
      (100 ≤ (call.run x c).m_diff ∧ (call.run x c).m_diff < 2147483647)) ∧
    ((call.run x c).m_mode = c.m_mode ∨ (call.run x c).m_mode = 0 ∨
      (call.run x c).m_mode = 1) := by
  cases call with
  | parseBoolean key enable =>
    have h := parseBoolean_frame x key enable c
    exact ⟨Or.inl h.1, Or.inl h.2⟩
  | parseString key arg => exact parseString_frame x key arg c
  | parseUint64 key arg =>
    have h := parseUint64_frame x key arg c
    exact ⟨h.1, Or.inl h.2⟩
  | parseJSON doc =>
    have h : (Config.parseJSON x doc c).m_diff = c.m_diff ∧
        (Config.parseJSON x doc c).m_mode = c.m_mode := by
      simp only [Config.parseJSON]
      cases doc.index "bind" with
      | array l =>
        have hl := parseJSONLoop_layer x l c
        exact ⟨hl.2.2.2.2.2.2.1, hl.2.2.2.2.1⟩
      | _ => exact ⟨rfl, rfl⟩
    exact ⟨Or.inl h.1, Or.inl h.2⟩
  | setMode mode =>
    simp only [Call.run]
    rcases setMode_frame mode c with h | h | h <;> simp [h]
  | setCoin coin =>
    simp only [Call.run, Config.setCoin]
    split <;> simp
  | adjust =>
    simp only [Call.run, Config.adjust]
    cases hb : (x.adjust c.base).1 <;> simp
    split <;> simp

/-- A custom difficulty that is 0 or in `[100, INT_MAX)` stays so along any
sequence of calls. -/
theorem runCalls_diff (calls : List (Collab × Call)) :
    ∀ c : Config, (c.m_diff = 0 ∨ (100 ≤ c.m_diff ∧ c.m_diff < 2147483647)) →
      ((runCalls calls c).m_diff = 0 ∨
        (100 ≤ (runCalls calls c).m_diff ∧ (runCalls calls c).m_diff < 2147483647)) := by
  induction calls with
  | nil => intro c h; exact h
  | cons step rest ih =>
    intro c h
    simp only [runCalls]
    apply ih
    rcases (Call.run_frame step.1 step.2 c).1 with hs | hs
    · rw [hs]; exact h
    · exact Or.inr hs

/-- A mode that is an index of the table stays so along any sequence of
calls. -/
theorem runCalls_mode (calls : List (Collab × Call)) :
    ∀ c : Config, (c.m_mode = 0 ∨ c.m_mode = 1) →
      ((runCalls calls c).m_mode = 0 ∨ (runCalls calls c).m_mode = 1) := by
  induction calls with
  | nil => intro c h; exact h
  | cons step rest ih =>
    intro c h
    simp only [runCalls]
    apply ih
    rcases (Call.run_frame step.1 step.2 c).2 with hs | hs | hs
    · rw [hs]; exact h
    · exact Or.inl hs
    · exact Or.inr hs

/-- C14: in every state reached from a freshly constructed model by any
sequence of `parseBoolean`, `parseString`, `parseUint64`, `parseJSON`,
`setMode`, `setCoin` and `adjust` calls, with arbitrary arguments and arbitrary
behaviour of the base handlers at each call, the stored custom difficulty is 0
or lies in `[100, INT_MAX)`. -/
theorem customDiff_invariant (b : CommonConfig) (calls : List (Collab × Call)) :
    (runCalls calls (Config.new b)).m_diff = 0 ∨
    (100 ≤ (runCalls calls (Config.new b)).m_diff ∧
      (runCalls calls (Config.new b)).m_diff < 2147483647) :=
  runCalls_diff calls (Config.new b) (Or.inl rfl)

/-- C20: in every state reached from a freshly constructed model by any
sequence of setter, `setMode`, `setCoin`, `parseJSON` and `adjust` calls, the
stored mode is 0 or 1, an index of the two-entry table `modeNames`, so the
lookup of `modeName()` is in bounds and returns `nicehash` or `simple`; on a
fresh model it returns `nicehash`. -/
theorem mode_invariant (b : CommonConfig) (calls : List (Collab × Call)) :
    ((runCalls calls (Config.new b)).m_mode = 0 ∨ (runCalls calls (Config.new b)).m_mode = 1) ∧
    (0 ≤ (runCalls calls (Config.new b)).m_mode ∧
      (runCalls calls (Config.new b)).m_mode < (modeNames.length : Int)) ∧
    ((runCalls calls (Config.new b)).modeName = some "nicehash" ∨
      (runCalls calls (Config.new b)).modeName = some "simple") ∧
    (Config.new b).modeName = some "nicehash" := by
  have h := runCalls_mode calls (Config.new b) (Or.inl rfl)
  refine ⟨h, ?_, ?_, ?_⟩
  · rcases h with h | h <;> rw [h] <;> simp [modeNames]
  · rcases h with h | h
    · left; simp [Config.modeName, h, modeNames]
    · right; simp [Config.modeName, h, modeNames]
  · simp [Config.modeName, Config.new, NICEHASH_MODE, modeNames]

/-- C15: for every live model and every JSON text that is invalid, either
malformed or with a candidate model that fails `adjust()`, `reload(jsonText)`
reports failure and leaves the live model, in particular its bind list and its
pool list, as it was before the call. -/
theorem reload_invalid (x : Collab) (ld : Loader) (live : Config) (json : String)
    (hbad : ld.parseText json = none ∨
      ∃ doc : JValue, ld.parseText json = some doc ∧
        (Config.adjust x (ConfigLoader.candidate x ld doc)).1 = false) :
    (Config.reload x ld json live).1 = false ∧
    (Config.reload x ld json live).2.m_addrs = live.m_addrs ∧
    (Config.reload x ld json live).2.base.m_pools = live.base.m_pools ∧
    (Config.reload x ld json live).2 = live := by
  have h : Config.reload x ld json live = (false, live) := by
    rcases hbad with h | ⟨doc, h, hadj⟩
    · simp [Config.reload, ConfigLoader.reload, h]
    · simp [Config.reload, ConfigLoader.reload, h, hadj]
  rw [h]
  exact ⟨rfl, rfl, rfl, rfl⟩

/-- Witness of C15: a malformed text makes the reload of a live model with two
bind addresses fail and keeps that model. -/
theorem reload_invalid_witness :
    Loader.sample.parseText "not json" = none ∧
    (Config.reload (Collab.constant true) Loader.sample "not json"
      (Config.adjust (Collab.constant true) (Config.new CommonConfig.zero)).2).1 = false ∧
    (Config.reload (Collab.constant true) Loader.sample "not json"
      (Config.adjust (Collab.constant true) (Config.new CommonConfig.zero)).2).2.m_addrs =
      (Config.adjust (Collab.constant true) (Config.new CommonConfig.zero)).2.m_addrs :=
  ⟨rfl,
    (reload_invalid (Collab.constant true) Loader.sample
      (Config.adjust (Collab.constant true) (Config.new CommonConfig.zero)).2 "not json"
      (Or.inl rfl)).1,
    (reload_invalid (Collab.constant true) Loader.sample
      (Config.adjust (Collab.constant true) (Config.new CommonConfig.zero)).2 "not json"
      (Or.inl rfl)).2.1⟩

/-- The result of `strtol` is never below `LONG_MIN`. -/
theorem strtol_lower (s : String) : -9223372036854775808 ≤ strtol s := by
  unfold strtol
  split
  · exact le_max_left _ _
  · simp only [LONG_MAX]; omega
  · simp only [LONG_MAX]; omega

/-- A negative `long` converts to an unsigned 64-bit value of at least
`2 ^ 63`, hence not below `INT_MAX`. -/
theorem to_uint64_negative (n : Int) (hlow : -9223372036854775808 ≤ n) (hneg : n < 0) :
    2147483647 ≤ to_uint64 n := by
  unfold to_uint64
  omega

/-- C16: with the base handlers accepting `CustomDiffKey`,
`parseString(CustomDiffKey, s)` is `parseUint64(CustomDiffKey, n)` run on the
state the base string handler leaves, where `n` is the value `strtol` reads
from `s` converted to unsigned 64-bit; it has the same result as
`parseUint64(CustomDiffKey, n)` on the prior state and the same effect on every
member of this layer, and is equal to it when the base string handler leaves
the base state as it was.  So `100` stores 100, `99` and a text without digits
leave the difficulty unchanged, and every text read as a negative number, such
as `-200`, gives `n >= INT_MAX` and leaves the difficulty unchanged. -/
theorem parseString_customDiff (x : Collab) (c : Config)
    (hS : ∀ (s : String) (b : CommonConfig), (x.parseString .CustomDiffKey s b).1 = true)
    (hU : ∀ (v : Nat) (b : CommonConfig), (x.parseUint64 .CustomDiffKey v b).1 = true) :
    (∀ s : String,
      Config.parseString x .CustomDiffKey s c =
        Config.parseUint64 x .CustomDiffKey (to_uint64 (strtol s))
          { c with base := (x.parseString .CustomDiffKey s c.base).2 } ∧
      (Config.parseString x .CustomDiffKey s c).1 =
        (Config.parseUint64 x .CustomDiffKey (to_uint64 (strtol s)) c).1 ∧
      Config.sameLayer (Config.parseUint64 x .CustomDiffKey (to_uint64 (strtol s)) c).2
        (Config.parseString x .CustomDiffKey s c).2 ∧
      ((x.parseString .CustomDiffKey s c.base).2 = c.base →
        Config.parseString x .CustomDiffKey s c =
          Config.parseUint64 x .CustomDiffKey (to_uint64 (strtol s)) c) ∧
      (strtol s < 0 → 2147483647 ≤ to_uint64 (strtol s) ∧
        (Config.parseString x .CustomDiffKey s c).2.m_diff = c.m_diff)) ∧
    (Config.parseString x .CustomDiffKey "100" c).2.m_diff = 100 ∧
    (Config.parseString x .CustomDiffKey "99" c).2.m_diff = c.m_diff ∧
    (Config.parseString x .CustomDiffKey "abc" c).2.m_diff = c.m_diff ∧
    to_uint64 (strtol "abc") = 0 ∧
    to_uint64 (strtol "-200") = 18446744073709551416 ∧
    (Config.parseString x .CustomDiffKey "-200" c).2.m_diff = c.m_diff := by
  have hdiff : ∀ s : String, (Config.parseString x .CustomDiffKey s c).2.m_diff =
      if 100 ≤ to_uint64 (strtol s) ∧ to_uint64 (strtol s) < 2147483647 then
        to_uint64 (strtol s) else c.m_diff := by
    intro s
    simp only [Config.parseString, Config.parseUint64, hS, hU, INT_MAX]
    by_cases h : 100 ≤ to_uint64 (strtol s) ∧ to_uint64 (strtol s) < 2147483647
    · simp [h]
    · simp [h]
  have h100 : to_uint64 (strtol "100") = 100 := by decide
  have h99 : to_uint64 (strtol "99") = 99 := by decide
  have habc : to_uint64 (strtol "abc") = 0 := by decide
  have hneg : to_uint64 (strtol "-200") = 18446744073709551416 := by decide
  refine ⟨?_, ?_, ?_, ?_, habc, hneg, ?_⟩
  · intro s
    refine ⟨?_, ?_, ?_, ?_, ?_⟩
    · simp [Config.parseString, hS]
    · simp [Config.parseString, Config.parseUint64, hS, hU]
      by_cases h : 100 ≤ to_uint64 (strtol s) ∧ to_uint64 (strtol s) < INT_MAX <;> simp [h]
    · simp only [Config.parseString, Config.parseUint64, hS, hU, Config.sameLayer]
      by_cases h : 100 ≤ to_uint64 (strtol s) ∧ to_uint64 (strtol s) < INT_MAX <;> simp [h]
    · intro hb
      simp only [Config.parseString, hS, hb]
      rfl
    · intro hlt
      have hge := to_uint64_negative (strtol s) (strtol_lower s) hlt
      refine ⟨hge, ?_⟩
      rw [hdiff s]
      have : ¬ (100 ≤ to_uint64 (strtol s) ∧ to_uint64 (strtol s) < 2147483647) := by omega
      simp [this]
  · rw [hdiff, h100]; simp
  · rw [hdiff, h99]; simp
  · rw [hdiff, habc]; simp
  · rw [hdiff, hneg]; simp

/-- Witness of C16: with an accepting base, the text `100` stores 100 on a
fresh model. -/
theorem parseString_customDiff_witness :
    (∀ (s : String) (b : CommonConfig), ((Collab.constant true).parseString .CustomDiffKey s b).1 = true) ∧
    (∀ (v : Nat) (b : CommonConfig), ((Collab.constant true).parseUint64 .CustomDiffKey v b).1 = true) ∧
    (Config.parseString (Collab.constant true) .CustomDiffKey "100" (Config.new CommonConfig.zero)).2.m_diff = 100 :=
  ⟨fun _ _ => rfl, fun _ _ => rfl,
    (parseString_customDiff (Collab.constant true) (Config.new CommonConfig.zero)
      (fun _ _ => rfl) (fun _ _ => rfl)).2.1⟩

/-- C17: for every key, argument and state, if the base handler returns false
for a call to `parseBoolean`, `parseString` or `parseUint64`, then that setter
returns false and every member of this layer (verbose, debug, workers, mode,
bind list, access log, custom difficulty, reuse-timeout) has the value it had
before the call. -/
theorem setters_base_false (x : Collab) (key : Key) (c : Config) :
    (∀ enable : Bool, (x.parseBoolean key enable c.base).1 = false →
      (Config.parseBoolean x key enable c).1 = false ∧
      Config.sameLayer c (Config.parseBoolean x key enable c).2) ∧
    (∀ arg : String, (x.parseString key arg c.base).1 = false →
      (Config.parseString x key arg c).1 = false ∧
      Config.sameLayer c (Config.parseString x key arg c).2) ∧
    (∀ arg : Nat, (x.parseUint64 key arg c.base).1 = false →
      (Config.parseUint64 x key arg c).1 = false ∧
      Config.sameLayer c (Config.parseUint64 x key arg c).2) := by
  refine ⟨?_, ?_, ?_⟩
  · intro enable h
    simp [Config.parseBoolean, h, Config.sameLayer]
  · intro arg h
    simp [Config.parseString, h, Config.sameLayer]
  · intro arg h
    simp [Config.parseUint64, h, Config.sameLayer]

/-- Witness of C17: with a rejecting base, `parseString(BindKey, .)` returns
false and leaves the members of this layer as they were. -/
theorem setters_base_false_witness :
    ((Collab.constant false).parseString .BindKey "127.0.0.1:80" (Config.new CommonConfig.zero).base).1 = false ∧
    (Config.parseString (Collab.constant false) .BindKey "127.0.0.1:80" (Config.new CommonConfig.zero)).1 = false ∧
    Config.sameLayer (Config.new CommonConfig.zero)
      (Config.parseString (Collab.constant false) .BindKey "127.0.0.1:80" (Config.new CommonConfig.zero)).2 :=
  ⟨rfl,
    (setters_base_false (Collab.constant false) .BindKey (Config.new CommonConfig.zero)).2.1
      "127.0.0.1:80" rfl⟩

/-- C18: for a key that is not one of the keys a setter switches on, and for
`CoinKey` passed to `parseString`, the setter returns exactly the result of the
base handler for that call, and its state is the prior state with the base part
the base handler leaves: no member of this layer changes.  The keys of
`parseBoolean` are verbose, debug and workers; those of `parseString` are mode,
bind, coin, access-log-file, verbose, debug, workers and custom-diff; those of
`parseUint64` are custom-diff and reuse-timeout. -/
theorem setters_other_keys (x : Collab) (key : Key) (c : Config) :
    (key ≠ .VerboseKey → key ≠ .DebugKey → key ≠ .WorkersKey → ∀ enable : Bool,
      Config.parseBoolean x key enable c =
        ((x.parseBoolean key enable c.base).1,
          { c with base := (x.parseBoolean key enable c.base).2 })) ∧
    (key ≠ .ModeKey → key ≠ .BindKey → key ≠ .AccessLogFileKey → key ≠ .VerboseKey →
      key ≠ .DebugKey → key ≠ .WorkersKey → key ≠ .CustomDiffKey → ∀ arg : String,
      Config.parseString x key arg c =
        ((x.parseString key arg c.base).1,
          { c with base := (x.parseString key arg c.base).2 })) ∧
    (∀ arg : String,
      Config.parseString x .CoinKey arg c =
        ((x.parseString .CoinKey arg c.base).1,
          { c with base := (x.parseString .CoinKey arg c.base).2 })) ∧
    (key ≠ .CustomDiffKey → key ≠ .ReuseTimeoutKey → ∀ arg : Nat,
      Config.parseUint64 x key arg c =
        ((x.parseUint64 key arg c.base).1,
          { c with base := (x.parseUint64 key arg c.base).2 })) := by
  refine ⟨?_, ?_, ?_, ?_⟩
  · intro h1 h2 h3 enable
    cases hb : (x.parseBoolean key enable c.base).1 <;> cases key <;>
      simp_all [Config.parseBoolean]
  · intro h1 h2 h3 h4 h5 h6 h7 arg
    cases hb : (x.parseString key arg c.base).1 <;> cases key <;>
      simp_all [Config.parseString]
  · intro arg
    cases hb : (x.parseString .CoinKey arg c.base).1 <;> simp [Config.parseString, hb]
  · intro h1 h2 arg
    cases hb : (x.parseUint64 key arg c.base).1 <;> cases key <;>
      simp_all [Config.parseUint64]

/-- Witness of C18: an unknown key passed to `parseBoolean` with a rejecting
base returns the base result, false, and keeps the state. -/
theorem setters_other_keys_witness :
    Key.other 7 ≠ Key.VerboseKey ∧ Key.other 7 ≠ Key.DebugKey ∧ Key.other 7 ≠ Key.WorkersKey ∧
    Config.parseBoolean (Collab.constant false) (.other 7) true (Config.new CommonConfig.zero) =
      (((Collab.constant false).parseBoolean (.other 7) true (Config.new CommonConfig.zero).base).1,
        { Config.new CommonConfig.zero with
          base := ((Collab.constant false).parseBoolean (.other 7) true (Config.new CommonConfig.zero).base).2 }) :=
  ⟨by decide, by decide, by decide,
    (setters_other_keys (Collab.constant false) (.other 7) (Config.new CommonConfig.zero)).1
      (by decide) (by decide) (by decide) true⟩

/-- C19: with the base handlers accepting the calls made,
`parseBoolean(VerboseKey, b)`, `parseBoolean(DebugKey, b)` and
`parseBoolean(WorkersKey, b)` return true and set the verbose, the debug and
the workers flag to `b`, every other member of this layer (the other two
flags, mode, bind list, custom difficulty, reuse-timeout, access log) keeping
its value; and for every string `a`, `parseString(VerboseKey, a)` sets verbose
to true, `parseString(DebugKey, a)` sets debug to true and
`parseString(WorkersKey, a)` sets workers to false, whatever the text of `a`,
again changing no other member of this layer.  The only base calls assumed to
be accepted are the ones the setter makes: the base boolean handler for the
key and value, and for `parseString` the base string handler for the key and
text followed by the base boolean handler on the state it leaves. -/
theorem flag_setters (x : Collab) (c : Config) :
    (∀ e : Bool, (x.parseBoolean .VerboseKey e c.base).1 = true →
      Config.parseBoolean x .VerboseKey e c =
        (true, { c with base := (x.parseBoolean .VerboseKey e c.base).2, m_verbose := e })) ∧
    (∀ e : Bool, (x.parseBoolean .DebugKey e c.base).1 = true →
      Config.parseBoolean x .DebugKey e c =
        (true, { c with base := (x.parseBoolean .DebugKey e c.base).2, m_debug := e })) ∧
    (∀ e : Bool, (x.parseBoolean .WorkersKey e c.base).1 = true →
      Config.parseBoolean x .WorkersKey e c =
        (true, { c with base := (x.parseBoolean .WorkersKey e c.base).2, m_workers := e })) ∧
    (∀ a : String, (x.parseString .VerboseKey a c.base).1 = true →
      (x.parseBoolean .VerboseKey true (x.parseString .VerboseKey a c.base).2).1 = true →
      Config.parseString x .VerboseKey a c =
        (true, { c with
          base := (x.parseBoolean .VerboseKey true (x.parseString .VerboseKey a c.base).2).2,
          m_verbose := true }) ∧
      (Config.parseString x .VerboseKey a c).2.m_verbose = true) ∧
    (∀ a : String, (x.parseString .DebugKey a c.base).1 = true →
      (x.parseBoolean .DebugKey true (x.parseString .DebugKey a c.base).2).1 = true →
      Config.parseString x .DebugKey a c =
        (true, { c with
          base := (x.parseBoolean .DebugKey true (x.parseString .DebugKey a c.base).2).2,
          m_debug := true }) ∧
      (Config.parseString x .DebugKey a c).2.m_debug = true) ∧
    (∀ a : String, (x.parseString .WorkersKey a c.base).1 = true →
      (x.parseBoolean .WorkersKey false (x.parseString .WorkersKey a c.base).2).1 = true →
      Config.parseString x .WorkersKey a c =
        (true, { c with
          base := (x.parseBoolean .WorkersKey false (x.parseString .WorkersKey a c.base).2).2,
          m_workers := false }) ∧
      (Config.parseString x .WorkersKey a c).2.m_workers = false) := by
  refine ⟨?_, ?_, ?_, ?_, ?_, ?_⟩
  · intro e hb
    simp [Config.parseBoolean, hb]
  · intro e hb
    simp [Config.parseBoolean, hb]
  · intro e hb
    simp [Config.parseBoolean, hb]
  · intro a hs hb
    simp [Config.parseString, Config.parseBoolean, hs, hb]
  · intro a hs hb
    simp [Config.parseString, Config.parseBoolean, hs, hb]
  · intro a hs hb
    simp [Config.parseString, Config.parseBoolean, hs, hb]

/-- Witness of C19: the base rejects the string call for the unrelated key
`other 1` with the empty text and accepts every other call; the calls
`parseString(WorkersKey, "")` makes are accepted, and the workers flag of a
fresh model, true by construction, becomes false. -/
theorem flag_setters_witness :
    (Collab.rejectingOne.parseString (.other 1) "" (Config.new CommonConfig.zero).base).1 = false ∧
    (Collab.rejectingOne.parseString .WorkersKey "" (Config.new CommonConfig.zero).base).1 = true ∧
    (Collab.rejectingOne.parseBoolean .WorkersKey false
      (Collab.rejectingOne.parseString .WorkersKey "" (Config.new CommonConfig.zero).base).2).1 = true ∧
    (Config.new CommonConfig.zero).m_workers = true ∧
    (Config.parseString Collab.rejectingOne .WorkersKey "" (Config.new CommonConfig.zero)).2.m_workers = false :=
  ⟨by decide, by decide, by decide, rfl,
    ((flag_setters Collab.rejectingOne (Config.new CommonConfig.zero)).2.2.2.2.2 ""
      (by decide) (by decide)).2⟩

end xmrig
